import Mathlib

/-!
# Air-Sentinel firmware: verification of the core control-loop logic

Shallow embedding of `src/main.py` (Air-Sentinel OS v2.6): the AQI
classifier, the hardware output driver, calibration and config
persistence, the URL decoder and setup-portal save handler, the
background-task scheduler gates, the rolling sensor window, and the
button gesture state machine of the main loop.

Conventions of the embedding:
* MicroPython ticks (`utime.ticks_ms`) are modelled as an `Int` timeline
  with `ticks_diff a b = a - b` (no wraparound on the modelled traces).
* Float arithmetic is modelled over `ℚ`.
* File I/O (config persistence, calibration log) is modelled as fields of
  the state (`configFile`, `calLog`); the `try/except:pass` wrappers
  around writes are modelled as the writes succeeding.
* Python exceptions in modelled expressions are `Option`/failure flags.
-/

namespace AirSentinel

/-- Persisted configuration dict: keys of `state["config"]` in the source
(`ssid`, `pass`, `lat`, `lon`, `auto`, `offset`). -/
structure Config where
  ssid : String
  pass : String
  lat : String
  lon : String
  auto : Bool
  offset : ℚ
deriving DecidableEq, Repr

/-- Built-in defaults of `state["config"]` (source line 31). -/
def configInit : Config :=
  { ssid := "", pass := "", lat := "51.7520", lon := "-1.2577",
    auto := false, offset := 6/10 }

/-- The mutable program state: the fields of the source's `state` dict that
the verified claims touch, plus the filesystem (`configFile` models
`config.json`, `calLog` models `cal_history.txt` as (timestamp, offset)
entries).  The wifi-scan cache (`last_scan_time`, `networks`) is outside
every claim and omitted. -/
structure St where
  mode : Nat
  auto_cycle : Bool
  msg_timer : Int
  msg_text : String
  dust_val : ℚ
  dust_history : List ℚ
  dust_offset : ℚ
  weather_temp : String
  weather_desc : String
  last_weather_update : Int
  last_ntp_update : Int
  last_mode_change : Int
  last_serial : Int
  config : Config
  configFile : Option Config
  calLog : List (String × ℚ)
deriving DecidableEq, Repr

/-- Initial state (source lines 25-32); `startTicks` is the boot-time
`utime.ticks_ms()`; `last_serial` defaults to 0 via `state.get`. -/
def stInit (startTicks : Int) : St :=
  { mode := 0, auto_cycle := false, msg_timer := 0, msg_text := "",
    dust_val := 0, dust_history := List.replicate 60 0, dust_offset := 6/10,
    weather_temp := "--C", weather_desc := "Syncing...",
    last_weather_update := -900000, last_ntp_update := -86400000,
    last_mode_change := startTicks, last_serial := 0,
    config := configInit, configFile := none, calLog := [] }

/-- Models `utime.ticks_diff` on the non-wrapping modelled timeline. -/
def ticks_diff (a b : Int) : Int := a - b

/-- ADC reading to volts: `(raw/65535)*3.3` (source lines 51 and 234). -/
def adcToVolt (raw : ℚ) : ℚ := raw / 65535 * (33/10)

/-- `get_aqi_category` (source lines 65-71): concentration to
(category string, level index). -/
def get_aqi_category (c : ℚ) : String × Nat :=
  if c ≤ 12.0 then ("GOOD", 0)
  else if c ≤ 35.4 then ("MODERATE", 1)
  else if c ≤ 55.4 then ("UNHEALTHY-S", 2)
  else if c ≤ 150.4 then ("UNHEALTHY", 3)
  else if c ≤ 250.4 then ("V. UNHEALTHY", 4)
  else ("HAZARDOUS", 5)

/-- `update_hardware` (source lines 73-77): re-asserts all six control
pins (`pin.value(1 if i == level else 0)`) and returns the category
string.  `pins` is the previous pin state (the source mutates globals);
the source ignores it and re-drives every pin. -/
def update_hardware (pins : List Bool) (c : ℚ) : List Bool × String :=
  let cs := get_aqi_category c
  ((List.range 6).map (fun i => i == cs.2), cs.1)

/-- A Python value passed as the `offset` keyword of `save_config`: the
portal passes a raw string, calibration and the double-tap pass floats. -/
inductive PyVal where
  | str (s : String)
  | num (q : ℚ)
deriving DecidableEq, Repr

/-- Character is an ASCII decimal digit. -/
def isDigit (c : Char) : Bool := decide ('0' ≤ c) && decide (c ≤ '9')

/-- Numeric value of a list of decimal digits. -/
def digitsToNat (l : List Char) : Nat :=
  l.foldl (fun n c => n * 10 + (c.toNat - '0'.toNat)) 0

/-- Models Python's `float(s)` on plain decimal literals: optional sign,
integer digits, optional fractional part (`"1"`, `"-2.5"`, `"1."`,
`".5"`); anything else (in particular a string containing `%`) raises
`ValueError`, modelled as `none`. -/
def parseFloat (s : String) : Option ℚ :=
  let p : ℚ × List Char :=
    match s.data with
    | '-' :: rest => (-1, rest)
    | '+' :: rest => (1, rest)
    | cs => (1, cs)
  let intPart := p.2.takeWhile isDigit
  let rest := p.2.dropWhile isDigit
  match rest with
  | [] =>
      if intPart.isEmpty then none
      else some (p.1 * digitsToNat intPart)
  | '.' :: frac =>
      if frac.all isDigit ∧ ¬(intPart.isEmpty ∧ frac.isEmpty) then
        some (p.1 * (digitsToNat intPart + digitsToNat frac / 10 ^ frac.length))
      else none
  | _ => none

/-- Models Python's `float(x)` on the dynamically-typed offset value. -/
def pyFloat : PyVal → Option ℚ
  | .num q => some q
  | .str s => parseFloat s

/-- `log_calibration` (source lines 35-40): appends one
`(timestamp, offset)` line to `cal_history.txt`. -/
def log_calibration (log : List (String × ℚ)) (ts : String) (offset : ℚ) :
    List (String × ℚ) :=
  log ++ [(ts, offset)]

/-- `save_config` (source lines 91-101).  Optional keyword arguments
update `state["config"]`; a given `offset` is passed through `float` and
logged via `log_calibration`, then the whole config is written to
`config.json`.  Returns the updated state and `true` on success; when
`float(offset)` raises, the earlier field mutations have already
happened but nothing is logged or persisted, and the flag is `false`
(the exception propagates to the caller). -/
def save_config (st : St) (ssid password lat lon : Option String)
    (auto : Option Bool) (offset : Option PyVal) (ts : String) : St × Bool :=
  let c0 := st.config
  let c1 := match ssid with | some v => { c0 with ssid := v } | none => c0
  let c2 := match password with | some v => { c1 with pass := v } | none => c1
  let c3 := match lat with | some v => { c2 with lat := v } | none => c2
  let c4 := match lon with | some v => { c3 with lon := v } | none => c3
  let c5 := match auto with | some v => { c4 with auto := v } | none => c4
  match offset with
  | none => ({ st with config := c5, configFile := some c5 }, true)
  | some v =>
      match pyFloat v with
      | none => ({ st with config := c5 }, false)
      | some q =>
          let c6 := { c5 with offset := q }
          ({ st with config := c6,
                     calLog := log_calibration st.calLog ts q,
                     configFile := some c6 }, true)

/-- `load_config` (source lines 79-89): on a readable config file, merge
it into `state["config"]` and refresh `auto_cycle` and `dust_offset`;
on `OSError/ValueError` (absent or corrupt file) recreate the file from
the in-memory defaults via `save_config()`. -/
def load_config (file : Option Config) (st : St) (ts : String) : St :=
  match file with
  | some saved =>
      { st with config := saved, auto_cycle := saved.auto,
                dust_offset := saved.offset }
  | none => (save_config st none none none none none none ts).1

/-- The 500 voltage samples collected by the calibration loop (source
lines 49-57); `raws i` is the i-th raw `read_u16` value. -/
def calSamples (raws : Nat → ℚ) : List ℚ :=
  (List.range 500).map (fun i => adcToVolt (raws i))

/-- Arithmetic mean of a list of rationals. -/
def listMean (l : List ℚ) : ℚ := l.sum / l.length

/-- `calibrate_sensor` (source lines 42-62): collects 500 samples, sets
`dust_offset` to their mean (`sum(samples)/len(samples)`), persists via
`save_config(offset=avg)`, and arms a 2000 ms confirmation message;
`now` models the `utime.ticks_ms()` call made after the sample loop. -/
def calibrate_sensor (st : St) (raws : Nat → ℚ) (now : Int) (ts : String) : St :=
  let samples := calSamples raws
  let avg := samples.sum / samples.length
  let st1 := { st with dust_offset := avg }
  let st2 := (save_config st1 none none none none none (some (.num avg)) ts).1
  { st2 with msg_text := "CAL & LOGGED!", msg_timer := now + 2000 }

/-- Value of a single hex digit (as accepted by Python `int(·, 16)`). -/
def hexDigit (c : Char) : Option Nat :=
  if '0' ≤ c ∧ c ≤ '9' then some (c.toNat - '0'.toNat)
  else if 'a' ≤ c ∧ c ≤ 'f' then some (c.toNat - 'a'.toNat + 10)
  else if 'A' ≤ c ∧ c ≤ 'F' then some (c.toNat - 'A'.toNat + 10)
  else none

/-- Models Python's `int(s, 16)` on the two-character slices taken by
`url_decode`: two hex digits, a hex digit padded by whitespace on either
side, or a negative single digit; everything else raises `ValueError`
(`none`).  (`'+'` cannot reach this point: `url_decode` has already
replaced it by a space.) -/
def pyIntHex2 (a b : Char) : Option Int :=
  match hexDigit a, hexDigit b with
  | some x, some y => some (16 * x + y)
  | _, _ =>
      if a = ' ' ∨ a = '\t' ∨ a = '\n' ∨ a = '\r' then
        (hexDigit b).map Int.ofNat
      else if b = ' ' ∨ b = '\t' ∨ b = '\n' ∨ b = '\r' then
        (hexDigit a).map Int.ofNat
      else if a = '-' then (hexDigit b).map (fun y => -(y : Int))
      else none

/-- Scan loop of `url_decode` (source lines 105-109): a `'%'` with at
least two following characters (the source's `i+2 < len(s)` guard)
consumes three characters and emits `chr(int(s[i+1:i+3], 16))`; any
other character is copied.  `none` models an uncaught `ValueError`
(non-hex escape) or `chr` of a negative value. -/
def urlDecodeGo : List Char → Option (List Char)
  | [] => some []
  | '%' :: a :: b :: rest =>
      match pyIntHex2 a b with
      | some n =>
          if n < 0 then none
          else (urlDecodeGo rest).map (fun r => Char.ofNat n.toNat :: r)
      | none => none
  | c :: rest => (urlDecodeGo rest).map (fun r => c :: r)

/-- The `s.replace('+', ' ')` pre-pass of `url_decode` (source line 104). -/
def plusToSpace (c : Char) : Char := if c = '+' then ' ' else c

/-- `url_decode` (source lines 103-110). -/
def url_decode (s : String) : Option String :=
  (urlDecodeGo (s.data.map plusToSpace)).map fun l => String.mk l

/-- Query parameters of a `GET /?s=...` portal request, as split out of
the request line (source lines 131-132); `os` is absent when the form
omitted it (`p.get('os', 0.6)` then supplies the float `0.6`). -/
structure Query where
  s : String
  p : String
  la : String
  lo : String
  os : Option String
deriving DecidableEq, Repr

/-- Result of one portal save attempt: the state afterwards, the body
sent to the client (`none` when an exception was swallowed by the
portal's `except: pass`), and whether `machine.reset()` runs. -/
structure PortalOutcome where
  st : St
  response : Option String
  reboot : Bool
deriving DecidableEq, Repr

/-- The `GET /?s=` branch of `run_setup_ap` (source lines 130-134):
`save_config(url_decode(p['s']), url_decode(p['p']), url_decode(p['la']),
url_decode(p['lo']), offset=p.get('os', 0.6))`, then the confirmation
response and a reboot.  Note the offset string is passed to
`save_config` without `url_decode`.  Any exception (a bad escape in the
four decoded parameters, or `float` failing on the offset) is caught by
the surrounding `except: pass`: no response, no reboot. -/
def handleSaveRequest (st : St) (q : Query) (ts : String) : PortalOutcome :=
  match url_decode q.s, url_decode q.p, url_decode q.la, url_decode q.lo with
  | some ds, some dp, some dla, some dlo =>
      let off : PyVal := match q.os with
        | some o => .str o
        | none => .num (6/10)
      match save_config st (some ds) (some dp) (some dla) (some dlo)
          none (some off) ts with
      | (st1, true) => ⟨st1, some "Saved! Rebooting...", true⟩
      | (st1, false) => ⟨st1, none, false⟩
  | _, _, _, _ => ⟨st, none, false⟩

/-- Network environment of one tick: connectivity, whether
`ntptime.settime()` would succeed, the parsed weather response (`none`
models a request/parse exception), and the station RSSI. -/
structure NetEnv where
  connected : Bool
  ntpOk : Bool
  weather : Option (Int × Int)
  rssi : Int
deriving DecidableEq, Repr

/-- Weather-code lookup of `sync_data` (source line 166):
`{0:"Clear", 1:"Mainly Clear", 2:"Partly Cloud", 3:"Overcast",
61:"Rainy"}.get(code, "Cloudy")`. -/
def weatherDesc (code : Int) : String :=
  if code = 0 then "Clear"
  else if code = 1 then "Mainly Clear"
  else if code = 2 then "Partly Cloud"
  else if code = 3 then "Overcast"
  else if code = 61 then "Rainy"
  else "Cloudy"

/-- `sync_data` (source lines 155-168).  Returns the new state plus two
flags: whether the NTP task and the weather task were attempted this
tick.  Disconnected: immediate return, nothing attempted.  Each task is
interval-gated; on failure (`except: pass`) its `last_*_update`
timestamp and, for weather, the cached fields stay untouched. -/
def sync_data (st : St) (env : NetEnv) (now : Int) : St × Bool × Bool :=
  if env.connected = false then (st, false, false)
  else
    let ntpDue := 86400000 < ticks_diff now st.last_ntp_update
    let st1 := if ntpDue then
        (if env.ntpOk then { st with last_ntp_update := now } else st)
      else st
    let wDue := 900000 < ticks_diff now st1.last_weather_update
    let st2 := if wDue then
        (match env.weather with
         | some (temp, code) =>
             { st1 with weather_temp := toString temp ++ "C",
                        weather_desc := weatherDesc code,
                        last_weather_update := now }
         | none => st1)
      else st1
    (st2, ntpDue, wDue)

/-- One emitted telemetry record (source lines 245-249).  The numeric
display rounding (`round(x, 2)` / `round(x, 4)`) is not modelled; the
exact values are carried.  `rssi = none` renders as `"DISC"`. -/
structure Telemetry where
  ts : String
  dust : ℚ
  cat : String
  cal : ℚ
  temp : String
  weather : String
  rssi : Option Int
  auto : Bool
deriving DecidableEq, Repr

/-- Telemetry emission of the main loop (source lines 241-250): gated
only by `ticks_diff(now, last_serial) >= 1000`; connectivity merely
selects the `rssi` field content. -/
def telemetryStep (st : St) (env : NetEnv) (now : Int) (ts : String) :
    St × Option Telemetry :=
  if 1000 ≤ ticks_diff now st.last_serial then
    ({ st with last_serial := now },
     some { ts := ts, dust := st.dust_val,
            cat := (get_aqi_category st.dust_val).1,
            cal := st.dust_offset, temp := st.weather_temp,
            weather := st.weather_desc,
            rssi := if env.connected then some env.rssi else none,
            auto := st.auto_cycle })
  else (st, none)

/-- Last `n` entries of a list (Python `l[-n:]`). -/
def lastN (l : List ℚ) (n : Nat) : List ℚ := l.drop (l.length - n)

/-- Sensor read and smoothing of the main loop (source lines 233-237):
convert the raw ADC value to volts, subtract the offset, clamp at 0,
scale by 170, `pop(0)`/`append` on the 60-entry history, and publish
`sum(history[-15:])/15` as `dust_val`. -/
def sensorStep (st : St) (raw : ℚ) : St :=
  let v := adcToVolt raw
  let cur := max 0 ((v - st.dust_offset) * 170)
  let hist := st.dust_history.drop 1 ++ [cur]
  { st with dust_history := hist, dust_val := (lastN hist 15).sum / 15 }

/-- Classification of a button release by press duration (the
`if/elif` chain at source lines 218-220). -/
inductive RelClass where
  | portal
  | calibration
  | click
  | noise
deriving DecidableEq, Repr

/-- `dur > 10000` enters the setup portal, `dur > 5000` calibrates,
`dur > 20` registers a click, anything shorter is contact noise
(source lines 217-220). -/
def classifyRelease (dur : Int) : RelClass :=
  if 10000 < dur then .portal
  else if 5000 < dur then .calibration
  else if 20 < dur then .click
  else .noise

/-- Button-handling locals of the main loop (source line 210):
`last_btn_state, btn_start, click_count, last_click`. -/
structure BtnSt where
  lastBtn : Bool
  btnStart : Int
  clickCount : Nat
  lastClick : Int
deriving DecidableEq, Repr

/-- `last_btn_state, btn_start, click_count, last_click = 0, 0, 0, 0`. -/
def btnInit : BtnSt := { lastBtn := false, btnStart := 0, clickCount := 0, lastClick := 0 }

/-- Gesture events of one main-loop iteration. -/
inductive GEvent where
  | portalHold
  | calibrationHold
  | shortTap
  | doubleTap
deriving DecidableEq, Repr

/-- Edge handling (source lines 214-221): on a rising edge record
`btn_start`; on a falling edge classify the press duration — a portal or
calibration hold fires its blocking routine and registers no click, a
click bumps `click_count` and stamps `last_click`, noise is dropped. -/
def edgeStep (s : BtnSt) (now : Int) (btn : Bool) : BtnSt × Option GEvent :=
  if btn = s.lastBtn then (s, none)
  else if btn then ({ s with btnStart := now, lastBtn := true }, none)
  else
    match classifyRelease (ticks_diff now s.btnStart) with
    | .portal => ({ s with lastBtn := false }, some .portalHold)
    | .calibration => ({ s with lastBtn := false }, some .calibrationHold)
    | .click =>
        ({ s with clickCount := s.clickCount + 1, lastClick := now,
                  lastBtn := false }, none)
    | .noise => ({ s with lastBtn := false }, none)

/-- Click aggregation (source lines 223-230): once the quiet window has
passed (`ticks_diff(now, last_click) > 250`) with clicks pending, two or
more clicks fire one DoubleTap, exactly one fires one ShortTap, and the
pending count resets. -/
def aggStep (s : BtnSt) (now : Int) : BtnSt × Option GEvent :=
  if 0 < s.clickCount ∧ 250 < ticks_diff now s.lastClick then
    if 2 ≤ s.clickCount then ({ s with clickCount := 0 }, some .doubleTap)
    else ({ s with clickCount := 0 }, some .shortTap)
  else (s, none)

/-- One main-loop iteration's button work on a sampled `(now, btn)`
pair: edge handling then click aggregation.  A portal hold suspends the
loop until reboot, so nothing further runs that iteration; a
calibration hold blocks inside the iteration and aggregation still runs
afterwards with the same `now`, exactly as in the source. -/
def btnTick (s : BtnSt) (now : Int) (btn : Bool) : BtnSt × List GEvent :=
  match edgeStep s now btn with
  | (s1, some GEvent.portalHold) => (s1, [GEvent.portalHold])
  | (s1, oe) =>
      match aggStep s1 now with
      | (s2, oe2) => (s2, oe.toList ++ oe2.toList)

/-- Run the button machine over a sampled trace of `(ticks, button)`
pairs, collecting emitted gesture events in order. -/
def runBtn (s : BtnSt) : List (Int × Bool) → BtnSt × List GEvent
  | [] => (s, [])
  | (now, b) :: rest =>
      let r1 := btnTick s now b
      let r2 := runBtn r1.1 rest
      (r2.1, r1.2 ++ r2.2)

/-- A 50 ms-cadence trace with two 50 ms presses whose clicks register
100 ms apart (at ticks 100 and 200), then a quiet tail. -/
def doubleClickTrace : List (Int × Bool) :=
  [(0, false), (50, true), (100, false), (150, true), (200, false),
   (250, false), (300, false), (350, false), (400, false), (450, false),
   (500, false), (550, false)]

/-- A single 50 ms press followed by silence. -/
def singleClickTrace : List (Int × Bool) :=
  [(0, false), (50, true), (100, false), (150, false), (200, false),
   (250, false), (300, false), (350, false), (400, false)]

/-- A click, silence long enough for its ShortTap to fire (at tick 400),
then a second click 400 ms after the first. -/
def lateSecondClickTrace : List (Int × Bool) :=
  [(0, false), (50, true), (100, false), (150, false), (200, false),
   (250, false), (300, false), (350, false), (400, false), (450, true),
   (500, false), (550, false), (600, false), (650, false), (700, false),
   (750, false), (800, false)]

/-- The ShortTap branch of the main loop (source lines 227-229):
RAM-only `auto_cycle` override, advance `mode` modulo the five views,
stamp `last_mode_change`.  No `save_config` call. -/
def shortTapBranch (st : St) (now : Int) : St :=
  { st with auto_cycle := false, mode := (st.mode + 1) % 5,
            last_mode_change := now }

/-- The DoubleTap branch of the main loop (source lines 224-226):
toggle `auto_cycle`, persist it via `save_config(auto=...)`, arm a
1000 ms confirmation message. -/
def doubleTapBranch (st : St) (now : Int) (ts : String) : St :=
  let st1 := { st with auto_cycle := !st.auto_cycle }
  let st2 := (save_config st1 none none none none (some st1.auto_cycle) none ts).1
  { st2 with msg_text := if st1.auto_cycle then "AUTO ON" else "AUTO OFF",
             msg_timer := now + 1000 }

/-! ## Helper lemmas -/

/-- The classifier's level index is always one of 0..5. -/
lemma get_aqi_level_cases (c : ℚ) :
    (get_aqi_category c).2 = 0 ∨ (get_aqi_category c).2 = 1 ∨
    (get_aqi_category c).2 = 2 ∨ (get_aqi_category c).2 = 3 ∨
    (get_aqi_category c).2 = 4 ∨ (get_aqi_category c).2 = 5 := by
  unfold get_aqi_category
  split_ifs <;> simp

/-! ## Claims -/

/-- C1 counterexample: the claim puts a press of exactly 10000 ms in the
PortalHold class, but the source's strict `dur > 10000` comparison sends
it to calibration instead. -/
theorem c1_counterexample :
    classifyRelease 10000 = RelClass.calibration ∧
    RelClass.calibration ≠ RelClass.portal := by
  decide

/-- C1 (amended): a release classifies by strict thresholds — duration
strictly above 10000 ms triggers the setup portal, strictly above
5000 ms and at most 10000 ms triggers calibration, strictly above 20 ms
and at most 5000 ms registers a click, and at most 20 ms is ignored as
noise; when a portal or calibration hold fires on a falling edge, the
pending click count is untouched, so no click is registered for that
cycle. -/
theorem c1_release_classification (dur : Int) (s : BtnSt) (now : Int) :
    (classifyRelease dur = RelClass.portal ↔ 10000 < dur) ∧
    (classifyRelease dur = RelClass.calibration ↔ 5000 < dur ∧ dur ≤ 10000) ∧
    (classifyRelease dur = RelClass.click ↔ 20 < dur ∧ dur ≤ 5000) ∧
    (classifyRelease dur = RelClass.noise ↔ dur ≤ 20) ∧
    (s.lastBtn = true → classifyRelease (ticks_diff now s.btnStart) = RelClass.portal →
      edgeStep s now false = ({ s with lastBtn := false }, some GEvent.portalHold)) ∧
    (s.lastBtn = true → classifyRelease (ticks_diff now s.btnStart) = RelClass.calibration →
      edgeStep s now false = ({ s with lastBtn := false }, some GEvent.calibrationHold)) := by
  refine ⟨?_, ?_, ?_, ?_, ?_, ?_⟩
  · unfold classifyRelease; split_ifs <;> simp_all <;> omega
  · unfold classifyRelease; split_ifs <;> simp_all <;> omega
  · unfold classifyRelease; split_ifs <;> simp_all <;> omega
  · unfold classifyRelease; split_ifs <;> simp_all <;> omega
  · intro hb hc; simp [edgeStep, hb, hc]
  · intro hb hc; simp [edgeStep, hb, hc]

/-- C1 witness: a 20-second press released from the pressed state fires
the portal hold and registers no click. -/
theorem c1_witness :
    edgeStep ⟨true, 0, 0, 0⟩ 20000 false =
      ({ lastBtn := false, btnStart := 0, clickCount := 0, lastClick := 0 },
       some GEvent.portalHold) :=
  (c1_release_classification 20000 ⟨true, 0, 0, 0⟩ 20000).2.2.2.2.1 rfl (by decide)

/-- C3: `get_aqi_category` is a total function returning one of six
categories with level index 0-5, selected by the ascending breakpoints
12.0 / 35.4 / 55.4 / 150.4 / 250.4 (first matching bound wins, top
category unbounded), and `get_aqi_category 40.0` is `("UNHEALTHY-S", 2)`. -/
theorem c3_classifier (c : ℚ) :
    (get_aqi_category c).2 < 6 ∧
    get_aqi_category c ∈ [("GOOD", 0), ("MODERATE", 1), ("UNHEALTHY-S", 2),
      ("UNHEALTHY", 3), ("V. UNHEALTHY", 4), ("HAZARDOUS", 5)] ∧
    (c ≤ 12.0 → get_aqi_category c = ("GOOD", 0)) ∧
    (¬c ≤ 12.0 → c ≤ 35.4 → get_aqi_category c = ("MODERATE", 1)) ∧
    (¬c ≤ 35.4 → c ≤ 55.4 → get_aqi_category c = ("UNHEALTHY-S", 2)) ∧
    (¬c ≤ 55.4 → c ≤ 150.4 → get_aqi_category c = ("UNHEALTHY", 3)) ∧
    (¬c ≤ 150.4 → c ≤ 250.4 → get_aqi_category c = ("V. UNHEALTHY", 4)) ∧
    (¬c ≤ 250.4 → get_aqi_category c = ("HAZARDOUS", 5)) ∧
    get_aqi_category 40.0 = ("UNHEALTHY-S", 2) := by
  refine ⟨?_, ?_, ?_, ?_, ?_, ?_, ?_, ?_, ?_⟩
  · unfold get_aqi_category; split_ifs <;> simp
  · unfold get_aqi_category; split_ifs <;> simp
  · intro h1; simp [get_aqi_category, h1]
  · intro h1 h2; simp [get_aqi_category, h1, h2]
  · intro h2 h3
    have h1 : ¬c ≤ 12.0 := fun hh => h2 (by linarith)
    simp [get_aqi_category, h1, h2, h3]
  · intro h3 h4
    have h1 : ¬c ≤ 12.0 := fun hh => h3 (by linarith)
    have h2 : ¬c ≤ 35.4 := fun hh => h3 (by linarith)
    simp [get_aqi_category, h1, h2, h3, h4]
  · intro h4 h5
    have h1 : ¬c ≤ 12.0 := fun hh => h4 (by linarith)
    have h2 : ¬c ≤ 35.4 := fun hh => h4 (by linarith)
    have h3 : ¬c ≤ 55.4 := fun hh => h4 (by linarith)
    simp [get_aqi_category, h1, h2, h3, h4, h5]
  · intro h5
    have h1 : ¬c ≤ 12.0 := fun hh => h5 (by linarith)
    have h2 : ¬c ≤ 35.4 := fun hh => h5 (by linarith)
    have h3 : ¬c ≤ 55.4 := fun hh => h5 (by linarith)
    have h4 : ¬c ≤ 150.4 := fun hh => h5 (by linarith)
    simp [get_aqi_category, h1, h2, h3, h4, h5]
  · norm_num [get_aqi_category]

/-- C3 witness: 40.0 sits in the (35.4, 55.4] band and classifies as
UNHEALTHY-S with level index 2. -/
theorem c3_witness :
    ¬(40.0 : ℚ) ≤ 35.4 ∧ (40.0 : ℚ) ≤ 55.4 ∧
    get_aqi_category 40.0 = ("UNHEALTHY-S", 2) :=
  ⟨by norm_num, by norm_num,
    (c3_classifier 40.0).2.2.2.2.1 (by norm_num) (by norm_num)⟩

/-- C6: after `update_hardware` runs on a concentration `c`, exactly one
of the six output pins is active — the one at the classifier's level
index — and the other five are inactive; re-running with the same
concentration leaves the outputs unchanged, and at `c = 40.0` output
line 2 is the active one. -/
theorem c6_hardware_outputs (c : ℚ) (p : List Bool) :
    ((update_hardware p c).1).length = 6 ∧
    ((update_hardware p c).1).count true = 1 ∧
    ((update_hardware p c).1).get? (get_aqi_category c).2 = some true ∧
    (∀ i : Fin 6, (i : Nat) ≠ (get_aqi_category c).2 →
      ((update_hardware p c).1).get? (i : Nat) = some false) ∧
    (update_hardware ((update_hardware p c).1) c).1 = (update_hardware p c).1 ∧
    (update_hardware p 40.0).1 = [false, false, true, false, false, false] := by
  have h40 : (update_hardware p 40.0).1 = [false, false, true, false, false, false] := by
    have : get_aqi_category 40.0 = ("UNHEALTHY-S", 2) := by norm_num [get_aqi_category]
    simp only [update_hardware, this]
    decide
  refine ⟨?_, ?_, ?_, ?_, rfl, h40⟩ <;>
    rcases get_aqi_level_cases c with h | h | h | h | h | h <;>
    simp only [update_hardware, h] <;> decide

/-- C6 witness: at `c = 40.0` (level index 2) pin 0 is inactive. -/
theorem c6_witness :
    ((update_hardware [] (40.0 : ℚ)).1).get? ((0 : Fin 6) : Nat) = some false :=
  (c6_hardware_outputs 40.0 []).2.2.2.1 0 (by norm_num [get_aqi_category])

/-- C7: on a 60-entry history, one sensor tick evicts the oldest entry
and appends the new clamped concentration (FIFO), the window length
stays 60, and the published `dust_val` is the arithmetic mean of the
most recent 15 entries of the window. -/
theorem c7_rolling_window (st : St) (raw : ℚ)
    (h : st.dust_history.length = 60) :
    (sensorStep st raw).dust_history.length = 60 ∧
    (sensorStep st raw).dust_history =
      st.dust_history.drop 1 ++ [max 0 ((adcToVolt raw - st.dust_offset) * 170)] ∧
    (lastN (sensorStep st raw).dust_history 15).length = 15 ∧
    (sensorStep st raw).dust_val = listMean (lastN (sensorStep st raw).dust_history 15) := by
  have hlen : (sensorStep st raw).dust_history.length = 60 := by
    simp [sensorStep, h]
  have hl15 : (lastN (sensorStep st raw).dust_history 15).length = 15 := by
    simp [lastN, hlen]
  refine ⟨hlen, rfl, hl15, ?_⟩
  show (lastN (sensorStep st raw).dust_history 15).sum / 15 = _
  rw [listMean, hl15]
  norm_num

/-- C7 witness: one tick on the freshly booted 60-zero history keeps the
window at 60 entries. -/
theorem c7_witness : (sensorStep (stInit 0) 5).dust_history.length = 60 :=
  (c7_rolling_window (stInit 0) 5 (by simp [stInit])).1

/-- C2: the click aggregator acts only once the 250 ms quiet window
after the last registered click has passed; when it acts it emits
exactly one event — ShortTap for exactly one pending click, DoubleTap
for two or more — and resets the pending count, so a completed ShortTap
can never be upgraded retroactively.  On concrete main-loop traces: two
clicks 100 ms apart yield exactly one DoubleTap (and no ShortTap), a
lone click yields exactly one ShortTap, and a second click arriving
only after the first ShortTap fired yields a second ShortTap, not a
DoubleTap. -/
theorem c2_click_aggregation :
    (∀ (s : BtnSt) (now : Int) (s' : BtnSt) (ev : GEvent),
      aggStep s now = (s', some ev) →
        0 < s.clickCount ∧ 250 < ticks_diff now s.lastClick ∧
        (ev = GEvent.shortTap ↔ s.clickCount = 1) ∧
        (ev = GEvent.doubleTap ↔ 2 ≤ s.clickCount) ∧
        s'.clickCount = 0) ∧
    (runBtn btnInit doubleClickTrace).2 = [GEvent.doubleTap] ∧
    (runBtn btnInit singleClickTrace).2 = [GEvent.shortTap] ∧
    (runBtn btnInit lateSecondClickTrace).2 = [GEvent.shortTap, GEvent.shortTap] := by
  refine ⟨?_, by decide, by decide, by decide⟩
  intro s now s' ev h
  unfold aggStep at h
  by_cases h1 : 0 < s.clickCount ∧ 250 < ticks_diff now s.lastClick
  · rw [if_pos h1] at h
    by_cases h2 : 2 ≤ s.clickCount
    · rw [if_pos h2] at h
      rw [Prod.mk.injEq] at h
      obtain ⟨hs, hev⟩ := h
      rw [Option.some.injEq] at hev
      subst hev
      exact ⟨h1.1, h1.2, by simp; omega, by simp [h2], by rw [← hs]⟩
    · rw [if_neg h2] at h
      rw [Prod.mk.injEq] at h
      obtain ⟨hs, hev⟩ := h
      rw [Option.some.injEq] at hev
      subst hev
      exact ⟨h1.1, h1.2, by simp; omega, by simp; omega, by rw [← hs]⟩
  · rw [if_neg h1] at h
    simp at h

/-- C2 witness: with two clicks pending and 300 ms of quiet, the
aggregator fires a DoubleTap and clears the pending count. -/
theorem c2_witness :
    0 < (⟨false, 0, 2, 100⟩ : BtnSt).clickCount ∧
    250 < ticks_diff 400 (⟨false, 0, 2, 100⟩ : BtnSt).lastClick ∧
    (GEvent.doubleTap = GEvent.shortTap ↔ (⟨false, 0, 2, 100⟩ : BtnSt).clickCount = 1) ∧
    (GEvent.doubleTap = GEvent.doubleTap ↔ 2 ≤ (⟨false, 0, 2, 100⟩ : BtnSt).clickCount) ∧
    (⟨false, 0, 0, 100⟩ : BtnSt).clickCount = 0 :=
  c2_click_aggregation.1 ⟨false, 0, 2, 100⟩ 400 ⟨false, 0, 0, 100⟩
    GEvent.doubleTap (by decide)

/-- C4: the calibration routine collects exactly 500 samples, sets the
offset (both the live `dust_offset` and the persisted config field) to
their arithmetic mean, persists the updated config, appends exactly one
calibration-log entry carrying that mean, and arms the confirmation
message with an expiry 2000 ms after completion; a constant raw signal
yields that constant's derived voltage as the new offset. -/
theorem c4_calibration (st : St) (raws : Nat → ℚ) (now : Int)
    (ts : String) (c : ℚ) :
    (calSamples raws).length = 500 ∧
    (calibrate_sensor st raws now ts).dust_offset = listMean (calSamples raws) ∧
    (calibrate_sensor st raws now ts).config.offset = listMean (calSamples raws) ∧
    (calibrate_sensor st raws now ts).calLog =
      st.calLog ++ [(ts, listMean (calSamples raws))] ∧
    (calibrate_sensor st raws now ts).configFile =
      some (calibrate_sensor st raws now ts).config ∧
    (calibrate_sensor st raws now ts).msg_text = "CAL & LOGGED!" ∧
    (calibrate_sensor st raws now ts).msg_timer = now + 2000 ∧
    (calibrate_sensor st (fun _ => c) now ts).dust_offset = adcToVolt c := by
  have hconstSamples : calSamples (fun _ => c) = List.replicate 500 (adcToVolt c) := by
    simp [calSamples, List.map_const']
  have hconst : (calibrate_sensor st (fun _ => c) now ts).dust_offset = adcToVolt c := by
    show (calSamples fun _ => c).sum / ((calSamples fun _ => c).length : ℚ) = adcToVolt c
    rw [hconstSamples, List.sum_replicate, List.length_replicate, nsmul_eq_mul]
    push_cast
    exact mul_div_cancel_left₀ _ (by norm_num)
  exact ⟨by simp [calSamples], rfl, rfl, rfl, rfl, rfl, rfl, hconst⟩

/-- C5: with connectivity absent `sync_data` attempts neither background
task and changes nothing; a failing NTP attempt leaves
`last_ntp_update` unchanged and a failing weather attempt leaves
`last_weather_update` and the cached weather values unchanged (so the
next eligible tick retries); `sync_data` never touches `last_serial`,
and the once-per-second telemetry gate depends only on
`ticks_diff(now, last_serial)`, not on the network environment. -/
theorem c5_background_tasks (st : St) (env : NetEnv) (now : Int) (ts : String) :
    (env.connected = false → sync_data st env now = (st, false, false)) ∧
    (env.ntpOk = false →
      (sync_data st env now).1.last_ntp_update = st.last_ntp_update) ∧
    (env.weather = none →
      (sync_data st env now).1.last_weather_update = st.last_weather_update ∧
      (sync_data st env now).1.weather_temp = st.weather_temp ∧
      (sync_data st env now).1.weather_desc = st.weather_desc) ∧
    (sync_data st env now).1.last_serial = st.last_serial ∧
    ((telemetryStep st env now ts).2.isSome =
      decide (1000 ≤ ticks_diff now st.last_serial)) ∧
    (∀ env' : NetEnv,
      (telemetryStep st env now ts).2.isSome =
        (telemetryStep st env' now ts).2.isSome) := by
  refine ⟨?_, ?_, ?_, ?_, ?_, ?_⟩
  · intro h; simp [sync_data, h]
  · intro h
    unfold sync_data
    rcases hc : env.connected with _ | _
    · simp
    · simp only [hc]
      cases hw : env.weather with
      | none => split_ifs <;> simp_all
      | some tc => split_ifs <;> simp_all
  · intro h
    unfold sync_data
    rcases hc : env.connected with _ | _
    · simp
    · simp only [hc, h]
      split_ifs <;> simp_all
  · unfold sync_data
    rcases hc : env.connected with _ | _
    · simp
    · simp only [hc]
      cases hw : env.weather with
      | none => split_ifs <;> simp_all
      | some tc => split_ifs <;> simp_all
  · unfold telemetryStep
    split_ifs with h <;> simp [h]
  · intro env'
    unfold telemetryStep
    split_ifs <;> simp

/-- C5 witness: disconnected, the freshly booted state passes through
`sync_data` unchanged with neither task attempted. -/
theorem c5_witness :
    sync_data (stInit 0) ⟨false, true, none, 0⟩ 5 = (stInit 0, false, false) :=
  (c5_background_tasks (stInit 0) ⟨false, true, none, 0⟩ 5 "t").1 rfl

/-- C8 counterexample: the portal does not percent-decode the offset
parameter.  With `os = "%31"` (the encoding of `"1"`), the claim
predicts the decoded offset `1` is written, a confirmation is sent and
the device reboots; the code instead feeds the raw string `"%31"` to
`float`, the resulting `ValueError` is swallowed by the portal loop,
and nothing is written, no confirmation is sent, and no reboot occurs. -/
theorem c8_counterexample :
    url_decode "%31" = some "1" ∧
    (handleSaveRequest (stInit 0) ⟨"a", "b", "c", "d", some "%31"⟩ "t").response = none ∧
    (handleSaveRequest (stInit 0) ⟨"a", "b", "c", "d", some "%31"⟩ "t").reboot = false ∧
    (handleSaveRequest (stInit 0) ⟨"a", "b", "c", "d", some "%31"⟩ "t").st.config.offset =
      (stInit 0).config.offset ∧
    (stInit 0).config.offset ≠ 1 :=
  ⟨by decide, rfl, rfl, rfl, by norm_num [stInit, configInit]⟩

/-- C8 (amended): the save handler percent-decodes four of the query
parameters — ssid, password, latitude, longitude — but passes the
offset value through verbatim, without percent-decoding; when the four
decode and the raw offset string parses as a float, all five values are
written into the config store, the config is persisted, exactly one
calibration-log entry is appended, a confirmation response is sent, and
the device reboots. -/
theorem c8_portal_save (st : St) (q : Query) (ts : String)
    (ds dp dla dlo oStr : String) (off : ℚ)
    (hs : url_decode q.s = some ds) (hp : url_decode q.p = some dp)
    (hla : url_decode q.la = some dla) (hlo : url_decode q.lo = some dlo)
    (hos : q.os = some oStr) (hf : parseFloat oStr = some off) :
    handleSaveRequest st q ts =
      ⟨{ st with
          config := { ssid := ds, pass := dp, lat := dla, lon := dlo,
                      auto := st.config.auto, offset := off },
          calLog := st.calLog ++ [(ts, off)],
          configFile := some { ssid := ds, pass := dp, lat := dla, lon := dlo,
                               auto := st.config.auto, offset := off } },
        some "Saved! Rebooting...", true⟩ := by
  simp [handleSaveRequest, hs, hp, hla, hlo, hos, save_config, pyFloat, hf,
    log_calibration]

/-- C8 witness: a benign request with `ssid = "my+net"`,
`password = "p%40ss"` and `os = "0.7500"` saves the decoded ssid
`"my net"` and password `"p@ss"`, stores offset 3/4, persists, logs
once, confirms and reboots. -/
theorem c8_witness :
    handleSaveRequest (stInit 0)
        ⟨"my+net", "p%40ss", "51.7", "-1.2", some "0.7500"⟩ "t" =
      ⟨{ stInit 0 with
          config := { ssid := "my net", pass := "p@ss", lat := "51.7",
                      lon := "-1.2", auto := (stInit 0).config.auto,
                      offset := 3/4 },
          calLog := (stInit 0).calLog ++ [("t", 3/4)],
          configFile := some { ssid := "my net", pass := "p@ss", lat := "51.7",
                               lon := "-1.2", auto := (stInit 0).config.auto,
                               offset := 3/4 } },
        some "Saved! Rebooting...", true⟩ :=
  c8_portal_save (stInit 0) ⟨"my+net", "p%40ss", "51.7", "-1.2", some "0.7500"⟩
    "t" "my net" "p@ss" "51.7" "-1.2" "0.7500" (3/4)
    (by decide) (by decide) (by decide) (by decide) rfl
    (by
      have h : "0.7500".data = ['0', '.', '7', '5', '0', '0'] := rfl
      simp +decide [parseFloat, h, isDigit, digitsToNat]
      norm_num)

/-- C9 counterexample: the claim says an escape whose two hex digits end
at the final character is copied through undecoded, but the guard
`i+2 < len(s)` holds there (for `"abc%41"`, `i = 3` and `i+2 = 5 < 6`),
so the escape IS decoded: `url_decode "abc%41" = "abcA"`. -/
theorem c9_counterexample :
    url_decode "abc%41" = some "abcA" ∧
    (some "abcA" : Option String) ≠ some "abc%41" := by
  decide

/-- C9 (amended): `url_decode` replaces every `'+'` with a space and
decodes a `'%XX'` escape exactly when at least two characters follow
the `'%'` — including an escape whose hex digits end at the final
character; only an incomplete escape (a `'%'` followed by fewer than
two characters) is copied through literally, and any non-`'%'`
character is copied unchanged. -/
theorem c9_url_decode (a b c : Char) (x : Int) (rest cs : List Char) :
    (pyIntHex2 a b = some x → 0 ≤ x →
      urlDecodeGo ('%' :: a :: b :: rest) =
        (urlDecodeGo rest).map (fun r => Char.ofNat x.toNat :: r)) ∧
    (urlDecodeGo ['%', a] = (urlDecodeGo [a]).map (fun r => '%' :: r)) ∧
    (urlDecodeGo ['%'] = some ['%']) ∧
    (c ≠ '%' → urlDecodeGo (c :: rest) =
      (urlDecodeGo rest).map (fun r => c :: r)) ∧
    (url_decode (String.mk ('+' :: cs)) = url_decode (String.mk (' ' :: cs))) ∧
    (url_decode "a+b" = some "a b") := by
  refine ⟨?_, rfl, rfl, ?_, ?_, by decide⟩
  · intro h hx
    simp only [urlDecodeGo, h]
    rw [if_neg (by omega)]
  · intro hc
    rcases rest with _ | ⟨d, _ | ⟨e, tail⟩⟩ <;> simp [urlDecodeGo, hc]
  · simp [url_decode, plusToSpace]

/-- C9 witness: `"%41"` is a complete escape ending at the last
character and decodes to `'A'` (code point 65). -/
theorem c9_witness :
    urlDecodeGo ['%', '4', '1'] =
      (urlDecodeGo []).map (fun r => Char.ofNat (Int.toNat 65) :: r) :=
  (c9_url_decode '4' '1' 'z' 65 [] []).1 (by decide) (by decide)

/-- C10: a ShortTap only mutates the RAM state — it disables
`auto_cycle`, advances the view modulo the five views and stamps
`last_mode_change` — leaving the persisted config structure, the config
file and the calibration log untouched; a DoubleTap by contrast
persists the toggled flag; and startup's `load_config` takes the
auto-cycle preference from the persisted file, so the next boot sees
the last persisted value, not the tap's RAM-only override. -/
theorem c10_shorttap_frame (st st2 : St) (now : Int) (file : Config) (ts : String) :
    (shortTapBranch st now).config = st.config ∧
    (shortTapBranch st now).configFile = st.configFile ∧
    (shortTapBranch st now).calLog = st.calLog ∧
    (shortTapBranch st now).auto_cycle = false ∧
    (shortTapBranch st now).mode = (st.mode + 1) % 5 ∧
    (shortTapBranch st now).last_mode_change = now ∧
    (doubleTapBranch st now ts).config.auto = !st.auto_cycle ∧
    (doubleTapBranch st now ts).configFile = some (doubleTapBranch st now ts).config ∧
    (load_config (some file) st2 ts).auto_cycle = file.auto ∧
    (load_config (some file) st2 ts).config = file :=
  ⟨rfl, rfl, rfl, rfl, rfl, rfl, rfl, rfl, rfl, rfl⟩

end AirSentinel
